import Mathlib

/-!
# Verification of the testos protected-mode bring-up layer

Shallow embedding of the descriptor-table builders, interrupt dispatch
table and legacy interrupt-controller driver of the testos kernel,
with theorems checking the specification's claims against the code.

Machine integers are modelled as `Nat` with explicit `% 2^w`
truncation at the points where the C code converts or stores into a
bit-field.  A C mask with a contiguous run of bits is translated to
the equivalent div/mod arithmetic, e.g. `x & 0xFFFF` becomes
`x % 65536` and `(x & 0x00FF0000) >> 16` becomes `x / 65536 % 256`;
each translated line carries the original C expression in a comment.
-/

namespace Testos

/-! ## Port I/O (src/cpu/port.c)

Port reads and writes are recorded in an event log, and drive a model
of the two cascaded 8259 interrupt-controller chips (the only devices
the verified code talks to through ports).  `port_wait` is, as in the
source, a write of 0 to port 0x80. -/

inductive PortEvent where
  | readE (port : Nat)
  | writeE (port : Nat) (val : Nat)
  deriving DecidableEq

/-- One 8259 chip.  `initStep` is the initialization-handshake mode of
the data port: 0 = normal operation (data port is the interrupt mask
register), 1/2/3 = the chip expects ICW2/ICW3/ICW4 next.  Modelled
per the controller protocol of spec section 4.4: the initialization
command on the command port starts the handshake, the next data-port
write is the vector base (ICW2), then cascade wiring (ICW3), then the
operating mode (ICW4), after which the data port is the mask again. -/
structure PicChip where
  mask : Nat
  initStep : Nat
  vectorBase : Nat
  deriving DecidableEq

structure PicState where
  master : PicChip
  slave : PicChip
  deriving DecidableEq

/-- Writing the initialization command 0x11 to a chip's command port
starts the ICW2/ICW3/ICW4 handshake. -/
def chipCommandWrite (c : PicChip) (v : Nat) : PicChip :=
  if v = 0x11 then { c with initStep := 1 } else c

/-- A data-port write: ICW2 (vector base), ICW3, ICW4 during the
handshake, otherwise the interrupt mask register. -/
def chipDataWrite (c : PicChip) (v : Nat) : PicChip :=
  if c.initStep = 1 then { c with vectorBase := v, initStep := 2 }
  else if c.initStep = 2 then { c with initStep := 3 }
  else if c.initStep = 3 then { c with initStep := 0 }
  else { c with mask := v }

/-- A data-port read returns the interrupt mask register. -/
def chipDataRead (c : PicChip) : Nat := c.mask

/-- The machine as the verified code sees it through ports: the two
controller chips plus the log of port operations performed. -/
structure Machine where
  pics : PicState
  log : List PortEvent
  deriving DecidableEq

def initMachine : Machine :=
  { pics := { master := { mask := 0, initStep := 0, vectorBase := 8 },
              slave := { mask := 0, initStep := 0, vectorBase := 0x70 } },
    log := [] }

/-- src/cpu/port.c `port_write_8`: the value is a `uint8_t`. -/
def port_write_8 (m : Machine) (port val : Nat) : Machine :=
  let val := val % 256
  let pics :=
    if port = 0x20 then { m.pics with master := chipCommandWrite m.pics.master val }
    else if port = 0x21 then { m.pics with master := chipDataWrite m.pics.master val }
    else if port = 0xA0 then { m.pics with slave := chipCommandWrite m.pics.slave val }
    else if port = 0xA1 then { m.pics with slave := chipDataWrite m.pics.slave val }
    else m.pics
  { pics := pics, log := m.log ++ [PortEvent.writeE port val] }

/-- src/cpu/port.c `port_read_8`: returns the machine with the read
logged, and the `uint8_t` value read. -/
def port_read_8 (m : Machine) (port : Nat) : Machine × Nat :=
  let v :=
    if port = 0x21 then chipDataRead m.pics.master
    else if port = 0xA1 then chipDataRead m.pics.slave
    else 0
  ({ m with log := m.log ++ [PortEvent.readE port] }, v % 256)

/-- src/cpu/port.c `port_wait`: `port_write_8(0x80, 0)`. -/
def port_wait (m : Machine) : Machine := port_write_8 m 0x80 0

/-! ## Interrupt controller driver (src/cpu/pic.c) -/

/-- src/cpu/pic.c `pic_remap`, line by line.  The port constants are
PIC_MASTER_COMMAND_PORT 0x20, PIC_MASTER_DATA_PORT 0x21,
PIC_SLAVE_COMMAND_PORT 0xA0, PIC_SLAVE_DATA_PORT 0xA1. -/
def pic_remap (m : Machine) (irq0_offset irq8_offset : Nat) : Machine :=
  let r1 := port_read_8 m 0x21            -- mask1 = port_read_8(PIC_MASTER_DATA_PORT)
  let mask1 := r1.2
  let r2 := port_read_8 r1.1 0xA1        -- mask2 = port_read_8(PIC_SLAVE_DATA_PORT)
  let mask2 := r2.2
  let m := r2.1
  let m := port_write_8 m 0x20 0x11      -- port_write_8(PIC_MASTER_COMMAND_PORT, 0x11)
  let m := port_wait m
  let m := port_write_8 m 0xA0 0x11      -- port_write_8(PIC_SLAVE_COMMAND_PORT, 0x11)
  let m := port_wait m
  let m := port_write_8 m 0x21 irq0_offset   -- port_write_8(PIC_MASTER_DATA_PORT, irq0_offset)
  let m := port_wait m
  let m := port_write_8 m 0xA1 irq8_offset   -- port_write_8(PIC_SLAVE_DATA_PORT, irq8_offset)
  let m := port_wait m
  let m := port_write_8 m 0x21 4         -- port_write_8(PIC_MASTER_DATA_PORT, 4)
  let m := port_wait m
  let m := port_write_8 m 0xA1 2         -- port_write_8(PIC_SLAVE_DATA_PORT, 2)
  let m := port_wait m
  let m := port_write_8 m 0x21 1         -- port_write_8(PIC_MASTER_DATA_PORT, 1)
  let m := port_wait m
  let m := port_write_8 m 0xA1 1         -- port_write_8(PIC_SLAVE_DATA_PORT, 1)
  let m := port_wait m
  let m := port_write_8 m 0x21 mask1     -- port_write_8(PIC_MASTER_DATA_PORT, mask1)
  port_write_8 m 0xA1 mask2              -- port_write_8(PIC_SLAVE_DATA_PORT, mask2)

/-- The vector a hardware interrupt line is delivered to, given the
controller state: lines 0-7 at the master's vector base, lines 8-15
at the slave's. -/
def pic_line_vector (s : PicState) (line : Nat) : Nat :=
  if line < 8 then s.master.vectorBase + line else s.slave.vectorBase + (line - 8)

example : (pic_remap initMachine 32 40).pics.master.vectorBase = 32 := by decide
example : (pic_remap initMachine 32 40).pics.slave.vectorBase = 40 := by decide
example : (pic_remap initMachine 32 40).pics.master.mask = 0 := by decide

/-- Controller state after `pic_remap`, for any starting state: the
handshake leaves both chips in normal mode with the requested vector
bases, and the masks written back are the ones read at entry. -/
lemma pic_remap_state_eq (m : Machine) (irq0 irq8 : Nat) :
    (pic_remap m irq0 irq8).pics =
      { master := { mask := m.pics.master.mask % 256, initStep := 0,
                    vectorBase := irq0 % 256 },
        slave := { mask := m.pics.slave.mask % 256, initStep := 0,
                   vectorBase := irq8 % 256 } } := by
  simp [pic_remap, port_write_8, port_read_8, port_wait,
    chipCommandWrite, chipDataWrite, chipDataRead]

/-- The exact port-operation trace of `pic_remap`. -/
lemma pic_remap_log_eq (m : Machine) (irq0 irq8 : Nat) :
    (pic_remap m irq0 irq8).log = m.log ++
      [PortEvent.readE 0x21, PortEvent.readE 0xA1,
       PortEvent.writeE 0x20 0x11, PortEvent.writeE 0x80 0,
       PortEvent.writeE 0xA0 0x11, PortEvent.writeE 0x80 0,
       PortEvent.writeE 0x21 (irq0 % 256), PortEvent.writeE 0x80 0,
       PortEvent.writeE 0xA1 (irq8 % 256), PortEvent.writeE 0x80 0,
       PortEvent.writeE 0x21 4, PortEvent.writeE 0x80 0,
       PortEvent.writeE 0xA1 2, PortEvent.writeE 0x80 0,
       PortEvent.writeE 0x21 1, PortEvent.writeE 0x80 0,
       PortEvent.writeE 0xA1 1, PortEvent.writeE 0x80 0,
       PortEvent.writeE 0x21 (m.pics.master.mask % 256),
       PortEvent.writeE 0xA1 (m.pics.slave.mask % 256)] := by
  simp [pic_remap, port_write_8, port_read_8, port_wait,
    chipCommandWrite, chipDataWrite, chipDataRead]

/-- C4: `pic_remap` preserves both 8-bit interrupt-mask registers for
every pair of offsets and every starting mask state (the masks read at
entry are written back at the end), and a second call with the same
offsets leaves the mask state exactly as after a single call. -/
theorem pic_remap_preserves_masks (m : Machine) (irq0 irq8 : Nat)
    (hm : m.pics.master.mask < 256) (hs : m.pics.slave.mask < 256) :
    (pic_remap m irq0 irq8).pics.master.mask = m.pics.master.mask ∧
    (pic_remap m irq0 irq8).pics.slave.mask = m.pics.slave.mask ∧
    (pic_remap (pic_remap m irq0 irq8) irq0 irq8).pics.master.mask =
      (pic_remap m irq0 irq8).pics.master.mask ∧
    (pic_remap (pic_remap m irq0 irq8) irq0 irq8).pics.slave.mask =
      (pic_remap m irq0 irq8).pics.slave.mask := by
  rw [pic_remap_state_eq (pic_remap m irq0 irq8), pic_remap_state_eq m]
  simp only
  omega

/-- Witness for `pic_remap_preserves_masks` at a concrete machine. -/
theorem pic_remap_preserves_masks_witness :
    (pic_remap initMachine 32 40).pics.master.mask = initMachine.pics.master.mask ∧
    (pic_remap initMachine 32 40).pics.slave.mask = initMachine.pics.slave.mask ∧
    (pic_remap (pic_remap initMachine 32 40) 32 40).pics.master.mask =
      (pic_remap initMachine 32 40).pics.master.mask ∧
    (pic_remap (pic_remap initMachine 32 40) 32 40).pics.slave.mask =
      (pic_remap initMachine 32 40).pics.slave.mask :=
  pic_remap_preserves_masks initMachine 32 40 (by decide) (by decide)

def isControllerPort (p : Nat) : Bool :=
  p = 0x20 || p = 0x21 || p = 0xA0 || p = 0xA1

/-- Checks that every write to a controller port (0x20/0x21/0xA0/0xA1)
in a port-operation trace is immediately followed by the settle-delay
write (`port_wait`, a write to port 0x80). -/
def waitAfterEachControllerWrite : List PortEvent → Bool
  | [] => true
  | PortEvent.writeE p _ :: rest =>
      if isControllerPort p then
        match rest with
        | PortEvent.writeE 0x80 _ :: _ => waitAfterEachControllerWrite rest
        | _ => false
      else waitAfterEachControllerWrite rest
  | PortEvent.readE _ :: rest => waitAfterEachControllerWrite rest

/-- C3 counterexample: at offsets (32, 40) from the initial machine,
the trace of `pic_remap` does not have a settle delay after each
controller write — the final two mask-restore writes (to 0x21 and
0xA1) have no `port_wait` after them. -/
theorem pic_remap_not_wait_after_every_write :
    waitAfterEachControllerWrite (pic_remap initMachine 32 40).log = false := by
  decide

/-- C3 amended: `pic_remap` performs exactly the ordered six-step
sequence — read both masks (0x21, 0xA1); write 0x11 to both command
ports (0x20, 0xA0); write the two vector bases to the data ports;
write the cascade-wiring bytes (4 master, 2 slave); write the
operating-mode byte (1) to each; write back the saved masks — with
the settle delay (a write of 0 to port 0x80) after each of the eight
initialization-sequence writes but not after the two final
mask-restore writes.  With offsets (32, 40), line 0 lands on vector
32, line 8 on vector 40, and no line maps below vector 32. -/
theorem pic_remap_sequence (m : Machine) (irq0_offset irq8_offset : Nat)
    (h0 : irq0_offset < 256) (h8 : irq8_offset < 256)
    (hm : m.pics.master.mask < 256) (hs : m.pics.slave.mask < 256) :
    (pic_remap m irq0_offset irq8_offset).log = m.log ++
      [PortEvent.readE 0x21, PortEvent.readE 0xA1,
       PortEvent.writeE 0x20 0x11, PortEvent.writeE 0x80 0,
       PortEvent.writeE 0xA0 0x11, PortEvent.writeE 0x80 0,
       PortEvent.writeE 0x21 irq0_offset, PortEvent.writeE 0x80 0,
       PortEvent.writeE 0xA1 irq8_offset, PortEvent.writeE 0x80 0,
       PortEvent.writeE 0x21 4, PortEvent.writeE 0x80 0,
       PortEvent.writeE 0xA1 2, PortEvent.writeE 0x80 0,
       PortEvent.writeE 0x21 1, PortEvent.writeE 0x80 0,
       PortEvent.writeE 0xA1 1, PortEvent.writeE 0x80 0,
       PortEvent.writeE 0x21 m.pics.master.mask,
       PortEvent.writeE 0xA1 m.pics.slave.mask] ∧
    pic_line_vector (pic_remap m 32 40).pics 0 = 32 ∧
    pic_line_vector (pic_remap m 32 40).pics 8 = 40 ∧
    (∀ line, line < 16 → 32 ≤ pic_line_vector (pic_remap m 32 40).pics line) := by
  refine ⟨?_, ?_, ?_, ?_⟩
  · rw [pic_remap_log_eq,
      Nat.mod_eq_of_lt h0, Nat.mod_eq_of_lt h8,
      Nat.mod_eq_of_lt hm, Nat.mod_eq_of_lt hs]
  · rw [pic_remap_state_eq]; simp [pic_line_vector]
  · rw [pic_remap_state_eq]; simp [pic_line_vector]
  · intro line hl
    rw [pic_remap_state_eq]
    simp only [pic_line_vector]
    split <;> omega

/-- Witness for `pic_remap_sequence` at a concrete machine. -/
theorem pic_remap_sequence_witness :
    (pic_remap initMachine 32 40).log = initMachine.log ++
      [PortEvent.readE 0x21, PortEvent.readE 0xA1,
       PortEvent.writeE 0x20 0x11, PortEvent.writeE 0x80 0,
       PortEvent.writeE 0xA0 0x11, PortEvent.writeE 0x80 0,
       PortEvent.writeE 0x21 32, PortEvent.writeE 0x80 0,
       PortEvent.writeE 0xA1 40, PortEvent.writeE 0x80 0,
       PortEvent.writeE 0x21 4, PortEvent.writeE 0x80 0,
       PortEvent.writeE 0xA1 2, PortEvent.writeE 0x80 0,
       PortEvent.writeE 0x21 1, PortEvent.writeE 0x80 0,
       PortEvent.writeE 0xA1 1, PortEvent.writeE 0x80 0,
       PortEvent.writeE 0x21 initMachine.pics.master.mask,
       PortEvent.writeE 0xA1 initMachine.pics.slave.mask] ∧
    pic_line_vector (pic_remap initMachine 32 40).pics 0 = 32 ∧
    pic_line_vector (pic_remap initMachine 32 40).pics 8 = 40 ∧
    (∀ line, line < 16 → 32 ≤ pic_line_vector (pic_remap initMachine 32 40).pics line) :=
  pic_remap_sequence initMachine 32 40 (by decide) (by decide) (by decide) (by decide)

/-- Modelled from the spec: `pic_eoi` is declared in src/cpu/pic.h but
its definition is not under src/.  Per spec section 4.4, the
end-of-interrupt acknowledgment (command byte 0x20) is written to both
controllers for a line greater than 7 (cascade acknowledgment), and
only to the master for lines 0-7. -/
def pic_eoi (m : Machine) (irq : Nat) : Machine :=
  let irq := irq % 256
  if 7 < irq then
    port_write_8 (port_write_8 m 0xA0 0x20) 0x20 0x20
  else
    port_write_8 m 0x20 0x20

/-- C8: `pic_eoi` writes the end-of-interrupt acknowledgment to both
the master and the slave controller for every line greater than 7, and
only to the master for lines 0-7. -/
theorem pic_eoi_ports (m : Machine) (irq : Nat) :
    (7 < irq % 256 →
      (pic_eoi m irq).log = m.log ++
        [PortEvent.writeE 0xA0 0x20, PortEvent.writeE 0x20 0x20]) ∧
    (irq % 256 ≤ 7 →
      (pic_eoi m irq).log = m.log ++ [PortEvent.writeE 0x20 0x20]) := by
  constructor
  · intro h
    simp [pic_eoi, port_write_8, if_pos h]
  · intro h
    rw [pic_eoi]
    simp only [Nat.not_lt.mpr h, if_neg (Nat.not_lt.mpr h)]
    simp [port_write_8]

/-- Witness for `pic_eoi_ports` at concrete lines 8 and 3. -/
theorem pic_eoi_ports_witness :
    (pic_eoi initMachine 8).log = initMachine.log ++
      [PortEvent.writeE 0xA0 0x20, PortEvent.writeE 0x20 0x20] ∧
    (pic_eoi initMachine 3).log = initMachine.log ++ [PortEvent.writeE 0x20 0x20] :=
  ⟨(pic_eoi_ports initMachine 8).1 (by decide),
   (pic_eoi_ports initMachine 3).2 (by decide)⟩

/-! ## Segment descriptor table (src/cpu/gdt.h, src/cpu/gdt.c, src/gdt.c, src/gdt.h)

The `gdt_entry` bit-field struct.  Each field holds the value the C
bit-field holds; stores into a `w`-bit field truncate with `% 2^w`. -/

structure GdtEntry where
  limit_0_15 : Nat
  base_0_15 : Nat
  base_16_23 : Nat
  access : Nat
  limit_16_19 : Nat
  flags : Nat
  base_24_31 : Nat
  deriving DecidableEq

/-- `struct gdt_entry entry = {0}` / a zero-initialized static entry. -/
def gdtZeroEntry : GdtEntry :=
  { limit_0_15 := 0, base_0_15 := 0, base_16_23 := 0, access := 0,
    limit_16_19 := 0, flags := 0, base_24_31 := 0 }

/-- The 32-bit base encoded in an entry, reassembled from its three
sub-fields. -/
def gdt_entry_base (e : GdtEntry) : Nat :=
  e.base_24_31 * 16777216 + e.base_16_23 * 65536 + e.base_0_15

/-- The 20-bit limit encoded in an entry, reassembled from its two
sub-fields. -/
def gdt_entry_limit (e : GdtEntry) : Nat :=
  e.limit_16_19 * 65536 + e.limit_0_15

/-- src/cpu/gdt.c `fill_common`.  `base` and `limit` are `uint32_t`. -/
def fill_common (entry : GdtEntry) (base limit : Nat) : GdtEntry :=
  let base := base % 4294967296
  let limit := limit % 4294967296
  { entry with
    base_0_15 := base % 65536,              -- base & 0x0000FFFF
    base_16_23 := base / 65536 % 256,       -- (base & 0x00FF0000) >> 16U
    base_24_31 := base / 16777216,          -- (base & 0xFF000000) >> 24U
    limit_0_15 := limit % 65536,            -- limit & 0x0000FFFF
    limit_16_19 := limit / 65536 % 16 }     -- (limit & 0x000F0000) >> 16U

/-- src/gdt.c `gdt_make_entry` (the five-argument revision).  The
masked-but-unshifted values are truncated by the narrow bit-fields
they are stored into, exactly as in the C. -/
def gdt_make_entry (base limit access privilege flags : Nat) : GdtEntry :=
  let base := base % 4294967296
  let limit := limit % 4294967296
  let access := access % 256
  let privilege := privilege % 256
  let flags := flags % 256
  -- result.access = (result.access & ~GDT_ENTRY_ACCESS_PRIV_BITS) | ((privilege & 3U) << 5U)
  let access2 := (access % 32 + access / 128 * 128 + privilege % 4 * 32) % 256
  -- result.access |= 16U
  let access3 := (access2 % 16 + 16 + access2 / 32 * 32) % 256
  { limit_0_15 := limit % 65536,                        -- limit & 0x0000FFFF
    limit_16_19 := limit / 65536 % 16 * 65536 % 16,     -- limit & 0x000F0000, stored in a 4-bit field
    base_0_15 := base % 65536,                          -- base & 0x0000FFFF
    base_16_23 := base / 65536 % 256 * 65536 % 256,     -- base & 0x00FF0000, stored in an 8-bit field
    base_24_31 := base / 16777216 * 16777216 % 256,     -- base & 0xFF000000, stored in an 8-bit field
    access := access3,
    flags := flags / 4 % 4 * 4 }                        -- flags & 12U, stored in a 4-bit field

/-- src/gdt.h `gdt_make_entry` (the four-argument inline revision). -/
def gdt_make_entry_inline (base limit access flags : Nat) : GdtEntry :=
  let base := base % 4294967296
  let limit := limit % 4294967296
  let access := access % 256
  let flags := flags % 256
  { limit_0_15 := limit % 65536,                        -- limit & 0x0000FFFF
    limit_16_19 := limit / 65536 % 16 * 65536 % 16,     -- limit & 0x000F0000, stored in a 4-bit field
    base_0_15 := base % 65536,                          -- base & 0x0000FFFF
    base_16_23 := base / 65536 % 256 * 65536 % 256,     -- base & 0x00FF0000, stored in an 8-bit field
    base_24_31 := base / 16777216 * 16777216 % 256,     -- base & 0xFF000000, stored in an 8-bit field
    access := access,
    flags := flags % 16 }                               -- stored in a 4-bit field

/-- Round-trip of `fill_common`: the encoded base reassembles to the
full 32-bit base and the encoded limit to `limit % 2^20`. -/
theorem fill_common_roundtrip (entry : GdtEntry) (base limit : Nat) :
    gdt_entry_base (fill_common entry base limit) = base % 4294967296 ∧
    gdt_entry_limit (fill_common entry base limit) = limit % 1048576 := by
  simp only [fill_common, gdt_entry_base, gdt_entry_limit]
  constructor <;> omega

/-- C2: at base 0x00FF0000, limit 0xFFFFF, the `gdt_make_entry`
builders of src/gdt.c and src/gdt.h lose the high base and limit bits
(their masked-but-unshifted values truncate to 0 in the narrow
bit-fields), while `fill_common` round-trips the same input exactly. -/
theorem gdt_make_entry_drops_high_bits :
    (gdt_make_entry 0x00FF0000 0xFFFFF 0x9A 0 0x0C).base_16_23 = 0 ∧
    (gdt_make_entry 0x00FF0000 0xFFFFF 0x9A 0 0x0C).limit_16_19 = 0 ∧
    gdt_entry_base (gdt_make_entry 0x00FF0000 0xFFFFF 0x9A 0 0x0C) = 0 ∧
    gdt_entry_limit (gdt_make_entry 0x00FF0000 0xFFFFF 0x9A 0 0x0C) = 0xFFFF ∧
    gdt_entry_base (gdt_make_entry_inline 0x00FF0000 0xFFFFF 0x9A 0x0C) = 0 ∧
    gdt_entry_limit (gdt_make_entry_inline 0x00FF0000 0xFFFFF 0x9A 0x0C) = 0xFFFF ∧
    gdt_entry_base (fill_common gdtZeroEntry 0x00FF0000 0xFFFFF) = 0x00FF0000 ∧
    gdt_entry_limit (fill_common gdtZeroEntry 0x00FF0000 0xFFFFF) = 0xFFFFF := by
  decide

/-! ## GDT management (src/cpu/gdt.c, src/kernel.c) -/

structure gdt_common_segment_settings where
  granularity : Nat
  present : Nat
  accessed : Nat
  privilege : Nat
  deriving DecidableEq

structure gdt_code_segment_settings where
  conforming : Nat
  readable : Nat
  common : gdt_common_segment_settings
  deriving DecidableEq

structure gdt_data_segment_settings where
  direction : Nat
  writable : Nat
  common : gdt_common_segment_settings
  deriving DecidableEq

/-- The static `gdt[8192]` table of src/cpu/gdt.c. -/
def GdtTable := Fin 8192 → GdtEntry

/-- The table before any setter runs: zero-initialized static storage. -/
def gdt_initial : GdtTable := fun _ => gdtZeroEntry

/-- src/cpu/gdt.c `gdt_set_code_segment`.  The settings bit-fields are
read back through their declared widths (1 bit each, 2 for the
privilege).  The store `gdt[segment / 8U] = entry` is bracketed by
`pushf; cli` / `popf` in the source; the interrupt-flag discipline is
modelled separately by the install-event model below. -/
def gdt_set_code_segment (t : GdtTable) (segment base limit : Nat)
    (settings : gdt_code_segment_settings) : GdtTable :=
  let entry := fill_common gdtZeroEntry base limit
  -- entry.flags = 0x04 | (settings->common.granularity << 3U)
  let entry := { entry with flags := (4 + settings.common.granularity % 2 * 8) % 16 }
  -- entry.access = 0x18 | accessed | (readable << 1U) | (conforming << 2U)
  --             | (privilege << 5U) | (present << 7U)
  let entry := { entry with access :=
    (24 + settings.common.accessed % 2 + settings.readable % 2 * 2
       + settings.conforming % 2 * 4 + settings.common.privilege % 4 * 32
       + settings.common.present % 2 * 128) % 256 }
  fun j => if j = (⟨segment % 65536 / 8, by omega⟩ : Fin 8192) then entry else t j

/-- src/cpu/gdt.c `gdt_set_data_segment`. -/
def gdt_set_data_segment (t : GdtTable) (segment base limit : Nat)
    (settings : gdt_data_segment_settings) : GdtTable :=
  let entry := fill_common gdtZeroEntry base limit
  -- entry.flags = 0x04 | (settings->common.granularity << 3U)
  let entry := { entry with flags := (4 + settings.common.granularity % 2 * 8) % 16 }
  -- entry.access = 0x10 | accessed | (writable << 1U) | (direction << 2U)
  --             | (privilege << 5U) | (present << 7U)
  let entry := { entry with access :=
    (16 + settings.common.accessed % 2 + settings.writable % 2 * 2
       + settings.direction % 2 * 4 + settings.common.privilege % 4 * 32
       + settings.common.present % 2 * 128) % 256 }
  fun j => if j = (⟨segment % 65536 / 8, by omega⟩ : Fin 8192) then entry else t j

/-- src/kernel.c `setup_flat_gdt`, acting on the table: a full-range
executable descriptor at selector 0x08 and a full-range writable
descriptor at selector 0x10 (`gdt_init` and the segment reload do not
write table entries). -/
def setup_flat_gdt (t : GdtTable) : GdtTable :=
  let c_settings : gdt_code_segment_settings :=
    { conforming := 0, readable := 1,
      common := { granularity := 1, present := 1, accessed := 0, privilege := 0 } }
  let t := gdt_set_code_segment t 0x08 0 0xFFFFF c_settings
  let d_settings : gdt_data_segment_settings :=
    { direction := 0, writable := 1,
      common := { granularity := 1, present := 1, accessed := 0, privilege := 0 } }
  gdt_set_data_segment t 0x10 0 0xFFFFF d_settings

/-- C6: after `setup_flat_gdt` on the zero-initialized table, entry 1
has the granularity flag bit (value 8) set and its encoded 20-bit
limit equal to 0xFFFFF, and entry 0 is still zero-filled. -/
theorem setup_flat_gdt_entry_one :
    (setup_flat_gdt gdt_initial (1 : Fin 8192)).flags / 8 % 2 = 1 ∧
    gdt_entry_limit (setup_flat_gdt gdt_initial (1 : Fin 8192)) = 0xFFFFF ∧
    setup_flat_gdt gdt_initial (0 : Fin 8192) = gdtZeroEntry := by
  decide

/-! ## Interrupt descriptor builder (src/x86/idt.h, src/x86/idt.c) -/

structure IdtEntry where
  offset_0_15 : Nat
  selector : Nat
  zero : Nat
  type : Nat
  storage_segment : Nat
  priv_level : Nat
  present : Nat
  offset_16_31 : Nat
  deriving DecidableEq

/-- src/x86/idt.c `idt_make_entry`.  `offset` is `uint32_t`; the
`selector`, `type`, `priv` and `present` parameters are declared
`uint8_t`.  Stores into a `w`-bit field truncate with `% 2^w`. -/
def idt_make_entry (offset selector type priv present : Nat) : IdtEntry :=
  let offset := offset % 4294967296
  let selector := selector % 256
  let type := type % 256
  let priv := priv % 256
  let present := present % 256
  { offset_0_15 := offset % 65536,                    -- offset & 0x0000FFFF
    offset_16_31 := offset / 65536 * 65536 % 65536,   -- offset & 0xFFFF0000, stored in a 16-bit field
    selector := selector % 65536,
    zero := 0,
    type := type % 16,
    storage_segment := 0,
    priv_level := priv % 4,
    present := if present = 0 then 0 else 1 }         -- present ? 1 : 0

/-- C1 (code bug): `idt_make_entry` always stores 0 in
`offset_16_31` — the source assigns `offset & 0xFFFF0000` without
shifting right by 16, so the 16-bit field keeps only the zero low
bits.  At offset 0x12345678 the low half is packed correctly (0x5678)
but the high half is 0 instead of bits 16-31 (0x1234). -/
theorem idt_make_entry_offset_high_half_zero :
    (∀ offset selector type priv present : Nat,
      (idt_make_entry offset selector type priv present).offset_16_31 = 0) ∧
    (idt_make_entry 0x12345678 0x08 14 0 1).offset_0_15 = 0x5678 ∧
    (idt_make_entry 0x12345678 0x08 14 0 1).offset_16_31 = 0 ∧
    (0x12345678 : Nat) / 65536 % 65536 = 0x1234 ∧
    (idt_make_entry 0x12345678 0x08 14 0 1).offset_16_31 ≠
      (0x12345678 : Nat) / 65536 % 65536 := by
  refine ⟨?_, by decide, by decide, by decide, by decide⟩
  intro offset selector type priv present
  simp only [idt_make_entry]
  omega

/-! ## Interrupt dispatch table (src/cpu/interrupt.c) -/

/-- Modelled from the spec: the `__isr_trampolines` table is defined
in assembly that is not under src/; per spec sections 4.3 and 9 it is
a statically generated array of one minimal entry stub per vector at
fixed distinct addresses.  Modelled as consecutively laid-out
16-byte stubs. -/
def isr_trampolines (i : Fin 256) : Nat := 0x100000 + 16 * i.val

/-- The component state: the mutable `__interrupt_handlers[256]` array
(`none` models a NULL function pointer) and the trampoline-address
table, which no operation of the component writes. -/
structure InterruptState (α : Type) where
  handlers : Fin 256 → Option α
  trampolines : Fin 256 → Nat

/-- src/cpu/interrupt.c: `interrupt_handler __interrupt_handlers[256] = {0}`
(all NULL), alongside the static trampoline table. -/
def interrupt_initial (α : Type) : InterruptState α :=
  { handlers := fun _ => none, trampolines := isr_trampolines }

/-- src/cpu/interrupt.c `interrupt_get_trampoline_addr`. -/
def interrupt_get_trampoline_addr {α : Type} (s : InterruptState α) (i : Fin 256) : Nat :=
  s.trampolines i

/-- src/cpu/interrupt.c `interrupt_get_handler`. -/
def interrupt_get_handler {α : Type} (s : InterruptState α) (i : Fin 256) : Option α :=
  s.handlers i

/-- src/cpu/interrupt.c `interrupt_set_handler`: writes only
`__interrupt_handlers[i]`. -/
def interrupt_set_handler {α : Type} (s : InterruptState α) (i : Fin 256)
    (h : Option α) : InterruptState α :=
  { s with handlers := fun j => if j = i then h else s.handlers j }

/-- Modelled from the spec: the per-vector trampoline stub (assembly
not under src/) looks up the registered handler for its vector and
invokes it exactly once, or takes the default halt action when none is
registered (spec section 4.3).  Returns the list of handler
invocations performed and whether the default halt action was taken. -/
def interrupt_dispatch {α : Type} (s : InterruptState α) (v : Fin 256) : List α × Bool :=
  match interrupt_get_handler s v with
  | some h => ([h], false)
  | none => ([], true)

/-- C5: after registering `h` for vector `v`, the lookup returns
exactly `h` and a dispatch for `v` invokes exactly that handler,
exactly once; after clearing (the NULL handler), the lookup is absent
and a dispatch takes the default halt action. -/
theorem set_handler_lookup_dispatch {α : Type} (s : InterruptState α)
    (v : Fin 256) (h : α) :
    interrupt_get_handler (interrupt_set_handler s v (some h)) v = some h ∧
    interrupt_dispatch (interrupt_set_handler s v (some h)) v = ([h], false) ∧
    interrupt_get_handler (interrupt_set_handler s v none) v = none ∧
    interrupt_dispatch (interrupt_set_handler s v none) v = ([], true) := by
  simp [interrupt_get_handler, interrupt_set_handler, interrupt_dispatch]

/-- C9: the trampoline address of any vector is unchanged by
`interrupt_set_handler` (no operation writes the trampoline table),
and distinct vectors have distinct trampoline addresses. -/
theorem trampoline_addr_stable_and_distinct {α : Type} (s : InterruptState α)
    (v : Fin 256) (h : Option α) (i j : Fin 256) (hij : i ≠ j) :
    interrupt_get_trampoline_addr (interrupt_set_handler s v h) i =
      interrupt_get_trampoline_addr s i ∧
    interrupt_get_trampoline_addr (interrupt_initial α) i ≠
      interrupt_get_trampoline_addr (interrupt_initial α) j := by
  refine ⟨rfl, ?_⟩
  have hv : i.val ≠ j.val := fun hv => hij (Fin.ext hv)
  simp only [interrupt_get_trampoline_addr, interrupt_initial, isr_trampolines]
  omega

/-- Witness for `trampoline_addr_stable_and_distinct` at vectors 0, 1. -/
theorem trampoline_addr_stable_and_distinct_witness :
    interrupt_get_trampoline_addr
        (interrupt_set_handler (interrupt_initial Nat) 0 (some 5)) 0 =
      interrupt_get_trampoline_addr (interrupt_initial Nat) 0 ∧
    interrupt_get_trampoline_addr (interrupt_initial Nat) 0 ≠
      interrupt_get_trampoline_addr (interrupt_initial Nat) 1 :=
  trampoline_addr_stable_and_distinct (interrupt_initial Nat) 0 (some 5) 0 1 (by decide)

/-- C10: `interrupt_set_handler v h` leaves the handler of every other
vector unchanged, and changes no trampoline address at all. -/
theorem set_handler_frame {α : Type} (s : InterruptState α) (v : Fin 256)
    (h : Option α) (w : Fin 256) (hw : w ≠ v) :
    interrupt_get_handler (interrupt_set_handler s v h) w =
      interrupt_get_handler s w ∧
    (∀ u : Fin 256, interrupt_get_trampoline_addr (interrupt_set_handler s v h) u =
      interrupt_get_trampoline_addr s u) := by
  refine ⟨?_, fun u => rfl⟩
  simp [interrupt_get_handler, interrupt_set_handler, hw]

/-- Witness for `set_handler_frame` at vectors 3 (written) and 4 (read). -/
theorem set_handler_frame_witness :
    interrupt_get_handler
        (interrupt_set_handler (interrupt_initial Nat) 3 (some 7)) 4 =
      interrupt_get_handler (interrupt_initial Nat) 4 ∧
    (∀ u : Fin 256, interrupt_get_trampoline_addr
        (interrupt_set_handler (interrupt_initial Nat) 3 (some 7)) u =
      interrupt_get_trampoline_addr (interrupt_initial Nat) u) :=
  set_handler_frame (interrupt_initial Nat) 3 (some 7) 4 (by decide)

/-! ## Interrupt-flag discipline of descriptor-table installs -/

inductive CpuEvent where
  | pushf
  | cli
  | popf
  | writeTablePointer
  | writeTableEntry
  deriving DecidableEq

/-- The interrupt-enable flag and the stack of flag words saved by
`pushf`. -/
structure FlagsState where
  intEnabled : Bool
  flagStack : List Bool
  deriving DecidableEq

def stepEvent (s : FlagsState) : CpuEvent → FlagsState
  | CpuEvent.pushf => { s with flagStack := s.intEnabled :: s.flagStack }
  | CpuEvent.cli => { s with intEnabled := false }
  | CpuEvent.popf =>
      match s.flagStack with
      | f :: rest => { intEnabled := f, flagStack := rest }
      | [] => s
  | CpuEvent.writeTablePointer => s
  | CpuEvent.writeTableEntry => s

def runEvents (s : FlagsState) : List CpuEvent → FlagsState
  | [] => s
  | e :: rest => runEvents (stepEvent s e) rest

/-- Checks that every table write in the event sequence happens while
the interrupt-enable flag is clear. -/
def writesWithInterruptsDisabled (s : FlagsState) : List CpuEvent → Bool
  | [] => true
  | e :: rest =>
      (match e with
       | CpuEvent.writeTablePointer => !s.intEnabled
       | CpuEvent.writeTableEntry => !s.intEnabled
       | _ => true) && writesWithInterruptsDisabled (stepEvent s e) rest

/-- Modelled from the spec: `gdt_load` is declared in src/cpu/gdt.h
but defined in assembly that is not under src/; per spec section 4.1
it writes the table pointer with interrupts disabled for its duration,
construct-then-restore. -/
def gdt_load_events : List CpuEvent :=
  [CpuEvent.pushf, CpuEvent.cli, CpuEvent.writeTablePointer, CpuEvent.popf]

/-- src/cpu/gdt.c `gdt_init`: calls `gdt_load` on the static table. -/
def gdt_init_events : List CpuEvent := gdt_load_events

/-- Modelled from the spec: `idt_load` is declared in src/x86/idt.h
but defined in assembly that is not under src/; per spec section 4.2
it installs the interrupt-table pointer under the same
interrupts-disabled discipline as section 4.1. -/
def idt_load_events : List CpuEvent :=
  [CpuEvent.pushf, CpuEvent.cli, CpuEvent.writeTablePointer, CpuEvent.popf]

/-- src/cpu/gdt.c `gdt_set_code_segment` / `gdt_set_data_segment`:
the inline `pushf; cli`, the table-entry store, then `popf`. -/
def gdt_set_segment_events : List CpuEvent :=
  [CpuEvent.pushf, CpuEvent.cli, CpuEvent.writeTableEntry, CpuEvent.popf]

/-- C7: from any starting interrupt-flag state, every descriptor-table
install path (the `gdt_init`/`gdt_load` pointer install, the
`idt_load` pointer install, and the bracketed entry store of the
segment setters) performs its table write with the interrupt-enable
flag clear and restores the prior flag state afterwards. -/
theorem table_installs_interrupts_disabled :
    ∀ f : Bool,
      writesWithInterruptsDisabled ⟨f, []⟩ gdt_init_events = true ∧
      (runEvents ⟨f, []⟩ gdt_init_events).intEnabled = f ∧
      writesWithInterruptsDisabled ⟨f, []⟩ idt_load_events = true ∧
      (runEvents ⟨f, []⟩ idt_load_events).intEnabled = f ∧
      writesWithInterruptsDisabled ⟨f, []⟩ gdt_set_segment_events = true ∧
      (runEvents ⟨f, []⟩ gdt_set_segment_events).intEnabled = f := by
  decide

end Testos
